import Mathlib

/-!
Verification of the dataset abstraction layer of the Capstone project
(file `preprocessing/utils.py`): the generic batching/splitting contract
`BaseTextCategorizationDataset` and its CSV-backed implementation
`LocalTextCategorizationDataset`.

The Python code is shallowly embedded: floats become rationals, Python ints
become `Int`, pandas data frames become lists of records, Python dicts become
association lists with last-binding-wins lookup, and the mutable dataset
object becomes an explicit state record threaded through the batch operations.
-/

namespace Capstone

/-- Embedding of `integer_floor(float_value)`, i.e. `int(np.floor(float_value))`. -/
def integer_floor (float_value : ℚ) : ℤ := ⌊float_value⌋

/-! ## BaseTextCategorizationDataset arithmetic

The base class stores `batch_size` and `train_ratio` and derives all counts
from the abstract `_get_num_samples()`.  We embed the derived methods as
functions of the sample count `n`, the train ratio `r` and the batch size
`bs`. -/

namespace Base

/-- Embedding of `_get_num_train_samples`:
`integer_floor(self._get_num_samples() * self.train_ratio)`. -/
def _get_num_train_samples (n : ℕ) (r : ℚ) : ℤ :=
  integer_floor ((n : ℚ) * r)

/-- Embedding of `_get_num_test_samples`:
`integer_floor(self._get_num_samples() - self._get_num_train_samples())`. -/
def _get_num_test_samples (n : ℕ) (r : ℚ) : ℤ :=
  integer_floor ((n : ℚ) - (_get_num_train_samples n r : ℚ))

/-- Embedding of `_get_num_train_batches`:
`integer_floor(self._get_num_train_samples() / self.batch_size)`
(Python `/` is true division, so the quotient is taken in `ℚ` and floored). -/
def _get_num_train_batches (n : ℕ) (r : ℚ) (bs : ℤ) : ℤ :=
  integer_floor ((_get_num_train_samples n r : ℚ) / (bs : ℚ))

/-- Embedding of `_get_num_test_batches`:
`integer_floor(self._get_num_test_samples() / self.batch_size)`. -/
def _get_num_test_batches (n : ℕ) (r : ℚ) (bs : ℤ) : ℤ :=
  integer_floor ((_get_num_test_samples n r : ℚ) / (bs : ℚ))

end Base

/-! ## Label maps

`get_index_to_label_map` builds `{index: label for index, label in enumerate(label_list)}`;
`get_label_to_index_map` reverses it.  A Python dict comprehension keeps the
*last* binding of a duplicated key, so lookup searches the pair list from the
right. -/

/-- Lookup in a Python dict built from an association list by a comprehension:
a later pair with the same key overwrites an earlier one, so the pair list is
searched from the right.  `none` is a `KeyError`. -/
def dictLookup {α β : Type} [DecidableEq α] (pairs : List (α × β)) (key : α) : Option β :=
  (pairs.reverse.find? (fun p => p.1 = key)).map (·.2)

/-- Embedding of `get_index_to_label_map`: the pairs `enumerate(label_list)`. -/
def get_index_to_label_map (label_list : List String) : List (ℕ × String) :=
  label_list.enum

/-- Embedding of `get_label_to_index_map`: the previous dictionary with keys
and values swapped. -/
def get_label_to_index_map (label_list : List String) : List (String × ℕ) :=
  (get_index_to_label_map label_list).map (fun p => (p.2, p.1))

/-- Evaluation of a Python list comprehension `[f(a) for a in l]` whose body
can raise (here: a dict lookup that can raise `KeyError`): elements are
evaluated left to right and the first failure aborts the whole comprehension. -/
def pyListMap {α β : Type} (f : α → Option β) : List α → Option (List β)
  | [] => some []
  | a :: l =>
    match f a with
    | none => none
    | some b =>
      match pyListMap f l with
      | none => none
      | some bs => some (b :: bs)

/-- Embedding of `to_indexes(labels)`:
`[label_to_index_map[label] for label in labels]`. -/
def to_indexes (label_list : List String) (labels : List String) : Option (List ℕ) :=
  pyListMap (dictLookup (get_label_to_index_map label_list)) labels

/-! ## load_dataset -/

/-- One row of the CSV file, with the expected columns. -/
structure Row where
  post_id : String
  tag_name : String
  tag_id : ℤ
  tag_position : ℤ
  title : String
deriving DecidableEq, Repr

/-- The loaded tabular file: its header columns and its rows. -/
structure CsvFile where
  columns : List String
  rows : List Row
deriving Repr

/-- Columns asserted by `load_dataset`. -/
def expected_columns : List String :=
  ["post_id", "tag_name", "tag_id", "tag_position", "title"]

/-- Embedding of `filter_tag_position(position)`:
`df[df['tag_position'] == position]`. -/
def filter_tag_position (position : ℤ) (df : List Row) : List Row :=
  df.filter (fun row => row.tag_position = position)

/-- Occurrence count `df['tag_name'].value_counts()[t]` of tag `t` in `df`. -/
def tag_count (df : List Row) (t : String) : ℕ :=
  (df.filter (fun row => row.tag_name = t)).length

/-- Embedding of `filter_tags_with_less_than_x_samples(x)`: keep the rows of
`df` whose `tag_name` occurs at least `x` times in `df` itself. -/
def filter_tags_with_less_than_x_samples (x : ℕ) (df : List Row) : List Row :=
  df.filter (fun row => x ≤ tag_count df row.tag_name)

/-- Embedding of `LocalTextCategorizationDataset.load_dataset`: check that the
expected columns are present (an `AssertionError` otherwise), then pipe the
rows through `filter_tag_position(0)` and then
`filter_tags_with_less_than_x_samples(min_samples_per_label)`. -/
def load_dataset (file : CsvFile) (min_samples_per_label : ℕ) : Except String (List Row) :=
  if expected_columns.all (fun col => file.columns.contains col) then
    .ok (filter_tags_with_less_than_x_samples min_samples_per_label
          (filter_tag_position 0 file.rows))
  else
    .error ("Columns do not match with the expected format")

/-! ## LocalTextCategorizationDataset state and batch retrieval -/

/-- Python slice `l[a:b]` for `Int` bounds, with Python's normalization of
negative and out-of-range endpoints. -/
def py_slice {α : Type} (l : List α) (a b : ℤ) : List α :=
  let L : ℤ := l.length
  let normA : ℕ := (if a < 0 then max 0 (L + a) else min a L).toNat
  let normB : ℕ := (if b < 0 then max 0 (L + b) else min b L).toNat
  (l.drop normA).take (normB - normA)

/-- The mutable state of a constructed `LocalTextCategorizationDataset`:
everything `__init__` stores on `self`.  The `y` rows are the one-hot
vectors produced by `to_categorical`. -/
structure DatasetState where
  batch_size : ℤ
  train_ratio : ℚ
  preprocess_text : List String → List String
  _dataset : List Row
  _label_list : List String
  x_train : List String
  y_train : List (List ℕ)
  x_test : List String
  y_test : List (List ℕ)
  train_batch_index : ℤ
  test_batch_index : ℤ

namespace DatasetState

/-- Embedding of `_get_num_samples`: `len(self._dataset)`. -/
def _get_num_samples (s : DatasetState) : ℕ := s._dataset.length

/-- Method `_get_num_train_samples` on the concrete dataset. -/
def num_train_samples (s : DatasetState) : ℤ :=
  Base._get_num_train_samples s._get_num_samples s.train_ratio

/-- Method `_get_num_test_samples` on the concrete dataset. -/
def num_test_samples (s : DatasetState) : ℤ :=
  Base._get_num_test_samples s._get_num_samples s.train_ratio

/-- Method `_get_num_train_batches` on the concrete dataset. -/
def num_train_batches (s : DatasetState) : ℤ :=
  Base._get_num_train_batches s._get_num_samples s.train_ratio s.batch_size

/-- Method `_get_num_test_batches` on the concrete dataset. -/
def num_test_batches (s : DatasetState) : ℤ :=
  Base._get_num_test_batches s._get_num_samples s.train_ratio s.batch_size

/-- Embedding of `get_train_batch`: slice `[i*batch_size : (i+1)*batch_size]`
out of `x_train`/`y_train`, preprocess the text slice, advance the train
cursor modulo `_get_num_train_batches()`, return the batch. -/
def get_train_batch (s : DatasetState) :
    (List String × List (List ℕ)) × DatasetState :=
  let i := s.train_batch_index
  let start_idx := i * s.batch_size
  let end_idx := (i + 1) * s.batch_size
  let next_x := s.preprocess_text (py_slice s.x_train start_idx end_idx)
  let next_y := py_slice s.y_train start_idx end_idx
  ((next_x, next_y),
   { s with train_batch_index := (s.train_batch_index + 1) % s.num_train_batches })

/-- Embedding of `get_test_batch`: same as `get_train_batch` on the test split. -/
def get_test_batch (s : DatasetState) :
    (List String × List (List ℕ)) × DatasetState :=
  let i := s.test_batch_index
  let start_idx := i * s.batch_size
  let end_idx := (i + 1) * s.batch_size
  let next_x := s.preprocess_text (py_slice s.x_test start_idx end_idx)
  let next_y := py_slice s.y_test start_idx end_idx
  ((next_x, next_y),
   { s with test_batch_index := (s.test_batch_index + 1) % s.num_test_batches })

/-- State after `k` successive `get_train_batch()` calls. -/
def iterate_train (s : DatasetState) : ℕ → DatasetState
  | 0 => s
  | k + 1 => ((iterate_train s k).get_train_batch).2

end DatasetState

/-- The conditions `__init__` establishes before returning: the two batch-count
assertions passed, `train_test_split(train_size=self._get_num_train_samples())`
produced splits of the corresponding exact sizes, the `y` arrays are aligned
with the `x` arrays, and both cursors were initialized to `0`. -/
def Constructed (s : DatasetState) : Prop :=
  0 < s.num_train_batches ∧
  0 < s.num_test_batches ∧
  (s.x_train.length : ℤ) = s.num_train_samples ∧
  (s.x_test.length : ℤ) = s.num_test_samples ∧
  s.y_train.length = s.x_train.length ∧
  s.y_test.length = s.x_test.length ∧
  s.train_batch_index = 0 ∧
  s.test_batch_index = 0

/-- Embedding of the assertion sequence run by `__init__`:
`assert train_ratio < 1.0` (in the base class constructor), `load_dataset`
(which asserts the expected columns), then
`assert self._get_num_train_batches() > 0` and
`assert self._get_num_test_batches() > 0`.  Returns the filtered dataset when
every assertion passes and the first failing assertion otherwise. -/
def construct_checks (file : CsvFile) (batch_size : ℤ) (train_ratio : ℚ)
    (min_samples_per_label : ℕ) : Except String (List Row) :=
  if train_ratio < 1 then
    match load_dataset file min_samples_per_label with
    | .error e => .error e
    | .ok ds =>
      if 0 < Base._get_num_train_batches ds.length train_ratio batch_size then
        if 0 < Base._get_num_test_batches ds.length train_ratio batch_size then
          .ok ds
        else .error ("assert self._get_num_test_batches() > 0")
      else .error ("assert self._get_num_train_batches() > 0")
  else .error ("assert train_ratio < 1.0")

/-! ## _SimpleSequence

`_SimpleSequence` stores two bound methods; `__len__` calls the batch-count
method and `__getitem__` ignores its index and calls the batch method.  Bound
methods on the mutable dataset object become state-passing functions here. -/

structure SimpleSequence (β : Type) where
  get_batch_method : DatasetState → β × DatasetState
  num_batches_method : DatasetState → ℤ

namespace SimpleSequence

/-- Embedding of `__len__`: `self.num_batches_method()`. -/
def len {β : Type} (seq : SimpleSequence β) (s : DatasetState) : ℤ :=
  seq.num_batches_method s

/-- Embedding of `__getitem__(idx)`: `self.get_batch_method()`; `idx` is ignored. -/
def getitem {β : Type} (seq : SimpleSequence β) (_idx : ℤ) (s : DatasetState) :
    β × DatasetState :=
  seq.get_batch_method s

end SimpleSequence

/-- Embedding of `get_train_sequence`:
`_SimpleSequence(self.get_train_batch, self._get_num_train_batches)`. -/
def get_train_sequence : SimpleSequence (List String × List (List ℕ)) :=
  ⟨DatasetState.get_train_batch, DatasetState.num_train_batches⟩

/-- Embedding of `get_test_sequence`:
`_SimpleSequence(self.get_test_batch, self._get_num_test_batches)`. -/
def get_test_sequence : SimpleSequence (List String × List (List ℕ)) :=
  ⟨DatasetState.get_test_batch, DatasetState.num_test_batches⟩

/-! ## Concrete fixtures used by the witnesses -/

/-- A sample row with `tag_position = 0`. -/
def sampleRow : Row :=
  { post_id := "id_1", tag_name := "tag_a", tag_id := 1,
    tag_position := 0, title := "title_1" }

/-- A sample row with `tag_position = 1`. -/
def sampleRowPos1 : Row :=
  { post_id := "id_2", tag_name := "tag_b", tag_id := 2,
    tag_position := 1, title := "title_2" }

/-- Fixture file for the filter claim: two rows with `tag_position` values
`[0, 1]`. -/
def fixtureTwoRows : CsvFile :=
  { columns := expected_columns, rows := [sampleRow, sampleRowPos1] }

/-- Fixture file for the construction claim: two `tag_position = 0` rows with
the same tag. -/
def fixtureC4 : CsvFile :=
  { columns := expected_columns,
    rows := [sampleRow, { sampleRow with post_id := "id_2", title := "title_2" }] }

/-- A constructed dataset with 4 samples, `train_ratio = 1/2`, `batch_size = 1`:
2 train samples, 2 test samples, 2 train batches, 2 test batches. -/
def W3 : DatasetState :=
  { batch_size := 1
    train_ratio := 1/2
    preprocess_text := fun x => x
    _dataset := [sampleRow, sampleRow, sampleRow, sampleRow]
    _label_list := ["tag_a"]
    x_train := ["t1", "t2"]
    y_train := [[1], [1]]
    x_test := ["t3", "t4"]
    y_test := [[1], [1]]
    train_batch_index := 0
    test_batch_index := 0 }

/-- A constructed dataset with 10 samples, `train_ratio = 1/2`, `batch_size = 2`:
5 train samples but only 2 train batches, so floor division under-counts the
trailing partial batch. -/
def W9 : DatasetState :=
  { batch_size := 2
    train_ratio := 1/2
    preprocess_text := fun x => x
    _dataset := [sampleRow, sampleRow, sampleRow, sampleRow, sampleRow,
                 sampleRow, sampleRow, sampleRow, sampleRow, sampleRow]
    _label_list := ["tag_a"]
    x_train := ["t1", "t2", "t3", "t4", "t5"]
    y_train := [[1], [1], [1], [1], [1]]
    x_test := ["u1", "u2", "u3", "u4", "u5"]
    y_test := [[1], [1], [1], [1], [1]]
    train_batch_index := 0
    test_batch_index := 0 }

end Capstone

namespace Capstone

/-! ## Helper lemmas -/

lemma floor_div_mul_le (t b : ℤ) (hb : 0 < b) :
    integer_floor ((t : ℚ) / (b : ℚ)) * b ≤ t := by
  have hbq : (0 : ℚ) < (b : ℚ) := by exact_mod_cast hb
  have h1 : ((integer_floor ((t : ℚ) / (b : ℚ)) : ℤ) : ℚ) ≤ (t : ℚ) / (b : ℚ) :=
    Int.floor_le _
  have h2 : ((integer_floor ((t : ℚ) / (b : ℚ)) : ℤ) : ℚ) * (b : ℚ) ≤ (t : ℚ) :=
    (le_div_iff₀ hbq).mp h1
  exact_mod_cast h2

lemma lt_floor_div_succ_mul (t b : ℤ) (hb : 0 < b) :
    t < (integer_floor ((t : ℚ) / (b : ℚ)) + 1) * b := by
  have hbq : (0 : ℚ) < (b : ℚ) := by exact_mod_cast hb
  have h1 : (t : ℚ) / (b : ℚ) < (integer_floor ((t : ℚ) / (b : ℚ)) : ℤ) + 1 :=
    Int.lt_floor_add_one _
  have h2 : (t : ℚ) < (((integer_floor ((t : ℚ) / (b : ℚ)) : ℤ) : ℚ) + 1) * (b : ℚ) :=
    (div_lt_iff₀ hbq).mp h1
  exact_mod_cast h2

lemma num_test_samples_eq (n : ℕ) (r : ℚ) :
    Base._get_num_test_samples n r = n - Base._get_num_train_samples n r := by
  unfold Base._get_num_test_samples integer_floor
  rw [show ((n : ℚ) - (Base._get_num_train_samples n r : ℚ))
        = (((n : ℤ) - Base._get_num_train_samples n r : ℤ) : ℚ) by push_cast; ring]
  rw [Int.floor_intCast]

lemma py_slice_length {α : Type} (l : List α) (a b : ℤ) (h0 : 0 ≤ a) (hab : a ≤ b)
    (hb : b ≤ (l.length : ℤ)) :
    ((py_slice l a b).length : ℤ) = b - a := by
  simp only [py_slice]
  rw [if_neg (by omega), if_neg (by omega)]
  simp only [List.length_take, List.length_drop]
  omega

/-! ## C1: dependent-floor sample counts -/

/-- C1: for every sample count `n` and train ratio `r < 1`,
`_get_num_train_samples()` returns `floor(n * r)` and `_get_num_test_samples()`
returns exactly `n` minus the already-floored train count (not an
independently floored `n * (1 - r)`). -/
theorem claim_C1 (n : ℕ) (r : ℚ) (hr : r < 1) :
    Base._get_num_train_samples n r = ⌊(n : ℚ) * r⌋ ∧
    Base._get_num_test_samples n r = n - Base._get_num_train_samples n r :=
  ⟨rfl, num_test_samples_eq n r⟩

/-- Witness for C1 at `n = 100`, `r = 4/5`: 80 train and 20 test samples. -/
theorem claim_C1_witness :
    (4/5 : ℚ) < 1 ∧
    (Base._get_num_train_samples 100 (4/5) = ⌊(100 : ℚ) * (4/5)⌋ ∧
     Base._get_num_test_samples 100 (4/5) = 100 - Base._get_num_train_samples 100 (4/5)) :=
  ⟨by norm_num, claim_C1 100 (4/5) (by norm_num)⟩

/-! ## C2: floor-division batch counts -/

/-- C2: for every sample count and batch size `bs > 0`, the train batch count
is `floor(numTrainSamples / bs)` and the test batch count is
`floor(numTestSamples / bs)`; no remainder batch is counted: the counted
batches cover at most the sample count, and one more batch would overshoot it. -/
theorem claim_C2 (n : ℕ) (r : ℚ) (bs : ℤ) (hbs : 0 < bs) :
    (Base._get_num_train_batches n r bs
        = ⌊(Base._get_num_train_samples n r : ℚ) / (bs : ℚ)⌋ ∧
      Base._get_num_train_batches n r bs * bs ≤ Base._get_num_train_samples n r ∧
      Base._get_num_train_samples n r < (Base._get_num_train_batches n r bs + 1) * bs) ∧
    (Base._get_num_test_batches n r bs
        = ⌊(Base._get_num_test_samples n r : ℚ) / (bs : ℚ)⌋ ∧
      Base._get_num_test_batches n r bs * bs ≤ Base._get_num_test_samples n r ∧
      Base._get_num_test_samples n r < (Base._get_num_test_batches n r bs + 1) * bs) :=
  ⟨⟨rfl, floor_div_mul_le _ _ hbs, lt_floor_div_succ_mul _ _ hbs⟩,
   ⟨rfl, floor_div_mul_le _ _ hbs, lt_floor_div_succ_mul _ _ hbs⟩⟩

/-- Witness for C2 at `n = 100`, `r = 4/5`, `bs = 7`: 11 train batches cover
77 of the 80 train samples and a 12th would overshoot. -/
theorem claim_C2_witness :
    (0 : ℤ) < 7 ∧
    ((Base._get_num_train_batches 100 (4/5) 7
        = ⌊(Base._get_num_train_samples 100 (4/5) : ℚ) / ((7 : ℤ) : ℚ)⌋ ∧
      Base._get_num_train_batches 100 (4/5) 7 * 7 ≤ Base._get_num_train_samples 100 (4/5) ∧
      Base._get_num_train_samples 100 (4/5)
        < (Base._get_num_train_batches 100 (4/5) 7 + 1) * 7) ∧
     (Base._get_num_test_batches 100 (4/5) 7
        = ⌊(Base._get_num_test_samples 100 (4/5) : ℚ) / ((7 : ℤ) : ℚ)⌋ ∧
      Base._get_num_test_batches 100 (4/5) 7 * 7 ≤ Base._get_num_test_samples 100 (4/5) ∧
      Base._get_num_test_samples 100 (4/5)
        < (Base._get_num_test_batches 100 (4/5) 7 + 1) * 7)) :=
  ⟨by norm_num, claim_C2 100 (4/5) 7 (by norm_num)⟩

end Capstone

namespace Capstone

/-! ## Dictionary lookup lemmas for the label maps -/

lemma find?_enumFrom_reverse (l : List String) (k i : ℕ) :
    ((List.enumFrom k l).reverse.find? (fun p => p.1 = i)) =
      if h : k ≤ i ∧ i - k < l.length then some (i, l.get ⟨i - k, h.2⟩) else none := by
  induction l generalizing k with
  | nil => simp
  | cons a l ih =>
    rw [List.enumFrom_cons, List.reverse_cons, List.find?_append, ih (k + 1)]
    by_cases h1 : k + 1 ≤ i ∧ i - (k + 1) < l.length
    · rw [dif_pos h1]
      have h2 : k ≤ i ∧ i - k < (a :: l).length := ⟨by omega, by simp; omega⟩
      rw [dif_pos h2]
      simp only [Option.or_some]
      congr 1
      have hik : i - k = (i - (k + 1)) + 1 := by omega
      simp [hik]
    · rw [dif_neg h1]
      simp only [Option.none_or]
      by_cases h3 : k = i
      · subst h3
        have h2 : k ≤ k ∧ k - k < (a :: l).length := ⟨le_refl _, by simp⟩
        rw [dif_pos h2]
        simp
      · have h2 : ¬ (k ≤ i ∧ i - k < (a :: l).length) := by
          simp only [List.length_cons]
          omega
        rw [dif_neg h2]
        simp [h3]

lemma find?_swap_enumFrom_reverse (l : List String) (k : ℕ) (lab : String)
    (hnd : l.Nodup) :
    (((List.enumFrom k l).map (fun p => (p.2, p.1))).reverse.find?
        (fun p => p.1 = lab)) =
      if lab ∈ l then some (lab, k + l.indexOf lab) else none := by
  induction l generalizing k with
  | nil => simp
  | cons a l ih =>
    rw [List.enumFrom_cons, List.map_cons, List.reverse_cons, List.find?_append,
      ih (k + 1) (List.Nodup.of_cons hnd)]
    by_cases h1 : lab ∈ l
    · have hne : lab ≠ a := by
        rintro rfl
        exact (List.nodup_cons.mp hnd).1 h1
      rw [if_pos h1, if_pos (List.mem_cons_of_mem a h1)]
      simp only [Option.or_some]
      congr 1
      rw [List.indexOf_cons_ne _ (Ne.symm hne), Prod.mk.injEq]
      exact ⟨rfl, by omega⟩
    · rw [if_neg h1]
      simp only [Option.none_or]
      by_cases h2 : a = lab
      · subst h2
        rw [if_pos (List.mem_cons_self a l)]
        simp [List.indexOf_cons_self]
      · rw [if_neg (by simp [List.mem_cons]; exact ⟨fun hh => h2 hh.symm, h1⟩)]
        simp [h2]

lemma dictLookup_index_to_label (labels : List String) (i : ℕ) :
    dictLookup (get_index_to_label_map labels) i = labels.get? i := by
  rw [dictLookup, get_index_to_label_map, List.enum, find?_enumFrom_reverse]
  by_cases h : 0 ≤ i ∧ i - 0 < labels.length
  · rw [dif_pos h]
    simp [List.get?_eq_get (show i < labels.length by omega)]
  · rw [dif_neg h]
    rw [List.get?_eq_none.mpr (by omega)]
    simp

lemma dictLookup_label_to_index (labels : List String) (hnd : labels.Nodup)
    (lab : String) :
    dictLookup (get_label_to_index_map labels) lab =
      if lab ∈ labels then some (labels.indexOf lab) else none := by
  rw [dictLookup, get_label_to_index_map, get_index_to_label_map, List.enum,
    find?_swap_enumFrom_reverse labels 0 lab hnd]
  by_cases h : lab ∈ labels
  · simp [h]
  · simp [h]

lemma dictLookup_label_isSome (labels : List String) (lab : String) :
    (dictLookup (get_label_to_index_map labels) lab).isSome ↔ lab ∈ labels := by
  rw [dictLookup, Option.isSome_map']
  rw [List.find?_isSome]
  constructor
  · rintro ⟨p, hp, he⟩
    rw [List.mem_reverse, get_label_to_index_map, List.mem_map] at hp
    obtain ⟨q, hq, rfl⟩ := hp
    rw [get_index_to_label_map, List.mem_enum_iff_getElem?] at hq
    simp only [decide_eq_true_eq] at he
    subst he
    exact List.mem_iff_getElem?.mpr ⟨_, hq⟩
  · intro h
    obtain ⟨n, hn⟩ := List.mem_iff_getElem?.mp h
    refine ⟨(lab, n), ?_, by simp⟩
    rw [List.mem_reverse, get_label_to_index_map, List.mem_map]
    exact ⟨(n, lab), by rw [get_index_to_label_map, List.mem_enum_iff_getElem?]; exact hn,
      rfl⟩

lemma pyListMap_isSome {α β : Type} (f : α → Option β) (l : List α) :
    (pyListMap f l).isSome ↔ ∀ a ∈ l, (f a).isSome := by
  induction l with
  | nil => simp [pyListMap]
  | cons a l ih =>
    rw [pyListMap]
    cases hfa : f a with
    | none => simp [hfa]
    | some b =>
      cases hml : pyListMap f l with
      | none => simp [hfa, hml, ← ih]
      | some bs => simp [hfa, hml, ← ih]

lemma pyListMap_eq_some {α β : Type} (f : α → Option β) (l : List α) (out : List β)
    (h : pyListMap f l = some out) :
    out.length = l.length ∧ ∀ k : ℕ, out.get? k = (l.get? k).bind f := by
  induction l generalizing out with
  | nil =>
    simp only [pyListMap, Option.some.injEq] at h
    subst h
    simp
  | cons a l ih =>
    rw [pyListMap] at h
    cases hfa : f a with
    | none => simp [hfa] at h
    | some b =>
      cases hml : pyListMap f l with
      | none => simp [hfa, hml] at h
      | some bs =>
        simp only [hfa, hml, Option.some.injEq] at h
        subst h
        obtain ⟨hlen, hget⟩ := ih bs hml
        refine ⟨by simp [hlen], ?_⟩
        intro k
        cases k with
        | zero => simp [hfa]
        | succ k => simpa using hget k

/-! ## C6: the label maps are mutual inverses -/

/-- C6: for every duplicate-free label list, `get_label_to_index_map` and
`get_index_to_label_map` are mutual inverses: every vocabulary label maps to
an index that maps back to it, every index below the vocabulary size maps to
a label that maps back to it, and the index-to-label dictionary is exactly
positional access into the label list (dense indices `0 .. n-1` in list
order). -/
theorem claim_C6 (labels : List String) (hnd : labels.Nodup) :
    (∀ lab ∈ labels, ∃ i : ℕ,
        dictLookup (get_label_to_index_map labels) lab = some i ∧
        dictLookup (get_index_to_label_map labels) i = some lab) ∧
    (∀ i : ℕ, i < labels.length → ∃ lab,
        dictLookup (get_index_to_label_map labels) i = some lab ∧
        dictLookup (get_label_to_index_map labels) lab = some i) ∧
    (∀ i : ℕ, dictLookup (get_index_to_label_map labels) i = labels.get? i) := by
  refine ⟨?_, ?_, fun i => dictLookup_index_to_label labels i⟩
  · intro lab hmem
    refine ⟨labels.indexOf lab, ?_, ?_⟩
    · rw [dictLookup_label_to_index labels hnd lab, if_pos hmem]
    · rw [dictLookup_index_to_label,
        List.get?_eq_get (List.indexOf_lt_length.mpr hmem),
        List.indexOf_get]
  · intro i hi
    refine ⟨labels.get ⟨i, hi⟩, ?_, ?_⟩
    · rw [dictLookup_index_to_label, List.get?_eq_get hi]
    · rw [dictLookup_label_to_index labels hnd _,
        if_pos (labels.get_mem _ _), List.get_indexOf hnd]

/-- Witness for C6 on the two-label vocabulary of the unit tests. -/
theorem claim_C6_witness :
    (["label_a", "label_b"] : List String).Nodup ∧
    (∃ i : ℕ,
      dictLookup (get_label_to_index_map ["label_a", "label_b"]) ("label_b") = some i ∧
      dictLookup (get_index_to_label_map ["label_a", "label_b"]) i = some ("label_b")) :=
  ⟨by decide, (claim_C6 ["label_a", "label_b"] (by decide)).1 ("label_b") (by decide)⟩

/-! ## C7: to_indexes preserves length and order, fails exactly on unknown labels -/

/-- C7: `to_indexes(labels)` succeeds exactly when every input label is in the
vocabulary (a missing label is a `KeyError`, i.e. `none`), and on success the
output has the length of the input with the looked-up index of each input
label at the same position. -/
theorem claim_C7 (vocab labels : List String) :
    ((to_indexes vocab labels).isSome ↔ ∀ lab ∈ labels, lab ∈ vocab) ∧
    ∀ out, to_indexes vocab labels = some out →
      out.length = labels.length ∧
      ∀ k : ℕ, out.get? k = (labels.get? k).bind
        (dictLookup (get_label_to_index_map vocab)) := by
  constructor
  · rw [to_indexes, pyListMap_isSome]
    exact forall₂_congr (fun lab _ => dictLookup_label_isSome vocab lab)
  · intro out h
    exact pyListMap_eq_some _ _ _ h

/-- Witness for C7 on the unit-test vocabulary: `to_indexes` of
`[label_a, label_b, label_a]` is `[0, 1, 0]`, of the input length, with each
position holding the lookup of the corresponding input label. -/
theorem claim_C7_witness :
    to_indexes ["label_a", "label_b"] ["label_a", "label_b", "label_a"]
      = some [0, 1, 0] ∧
    ([0, 1, 0] : List ℕ).length = (["label_a", "label_b", "label_a"] : List String).length ∧
    ∀ k : ℕ, ([0, 1, 0] : List ℕ).get? k
      = ((["label_a", "label_b", "label_a"] : List String).get? k).bind
          (dictLookup (get_label_to_index_map ["label_a", "label_b"])) :=
  ⟨by decide,
   (claim_C7 ["label_a", "label_b"] ["label_a", "label_b", "label_a"]).2
     [0, 1, 0] (by decide)⟩

end Capstone

namespace Capstone

/-! ## Cursor iteration lemmas -/

lemma get_train_batch_snd (s : DatasetState) :
    ((s.get_train_batch).2)
      = { s with train_batch_index := (s.train_batch_index + 1) % s.num_train_batches } :=
  rfl

lemma num_train_batches_update (s : DatasetState) (x : ℤ) :
    ({ s with train_batch_index := x } : DatasetState).num_train_batches
      = s.num_train_batches :=
  rfl

lemma iterate_train_cursor (s : DatasetState) (h0 : s.train_batch_index = 0)
    (hN : 0 < s.num_train_batches) (k : ℕ) :
    s.iterate_train k
      = { s with train_batch_index := (k : ℤ) % s.num_train_batches } := by
  induction k with
  | zero =>
    show s = _
    rw [Nat.cast_zero, Int.zero_emod, ← h0]
  | succ k ih =>
    show ((s.iterate_train k).get_train_batch).2 = _
    rw [ih, get_train_batch_snd]
    simp only [num_train_batches_update]
    congr 1
    push_cast
    conv_lhs => rw [Int.add_emod]
    conv_rhs => rw [Int.add_emod]
    rw [Int.emod_emod_of_dvd _ dvd_rfl]

/-! ## C3: wraparound returns the first batch again -/

/-- C3: on a constructed dataset with the identity `preprocess_text`, the
`numTrainBatches + 1`-st call of `get_train_batch()` returns the same batch as
the first call: each retrieval advances the cursor by one modulo the train
batch count, so after `numTrainBatches` calls the cursor is back at `0`. -/
theorem claim_C3 (s : DatasetState) (hc : Constructed s)
    (hid : s.preprocess_text = fun x => x) :
    ((s.iterate_train s.num_train_batches.toNat).get_train_batch).1
        = (s.get_train_batch).1 ∧
    (s.iterate_train s.num_train_batches.toNat).train_batch_index = 0 ∧
    ∀ t : DatasetState, (((t.get_train_batch).2)).train_batch_index
        = (t.train_batch_index + 1) % t.num_train_batches := by
  obtain ⟨hN, -, -, -, -, -, h0, -⟩ := hc
  have key : s.iterate_train s.num_train_batches.toNat = s := by
    rw [iterate_train_cursor s h0 hN, Int.toNat_of_nonneg hN.le, Int.emod_self, ← h0]
  rw [key]
  exact ⟨rfl, h0, fun t => rfl⟩

/-! ## C8: the sequence wrapper ignores its index -/

/-- C8: `get_train_sequence()` / `get_test_sequence()` have length equal to
the corresponding batch count, and `__getitem__` ignores the requested index:
element access at any index calls the corresponding batch method, so two
successive accesses at arbitrary indices return the cursor's next two
batches. -/
theorem claim_C8 (s : DatasetState) (idx1 idx2 : ℤ) :
    SimpleSequence.len get_train_sequence s = s.num_train_batches ∧
    SimpleSequence.len get_test_sequence s = s.num_test_batches ∧
    SimpleSequence.getitem get_train_sequence idx1 s = s.get_train_batch ∧
    SimpleSequence.getitem get_test_sequence idx1 s = s.get_test_batch ∧
    SimpleSequence.getitem get_train_sequence idx2
        ((SimpleSequence.getitem get_train_sequence idx1 s).2)
      = DatasetState.get_train_batch ((s.get_train_batch).2) ∧
    SimpleSequence.getitem get_test_sequence idx2
        ((SimpleSequence.getitem get_test_sequence idx1 s).2)
      = DatasetState.get_test_batch ((s.get_test_batch).2) :=
  ⟨rfl, rfl, rfl, rfl, rfl, rfl⟩

/-! ## C10: each batch method mutates only its own cursor -/

/-- C10: `get_train_batch` changes only `train_batch_index` (to the next value
modulo the train batch count) and `get_test_batch` changes only
`test_batch_index`; the other cursor, the four split arrays, the filtered
dataset, the label list and the parameters are unchanged. -/
theorem claim_C10 (s : DatasetState) :
    (((s.get_train_batch).2).test_batch_index = s.test_batch_index ∧
     ((s.get_train_batch).2).x_train = s.x_train ∧
     ((s.get_train_batch).2).y_train = s.y_train ∧
     ((s.get_train_batch).2).x_test = s.x_test ∧
     ((s.get_train_batch).2).y_test = s.y_test ∧
     ((s.get_train_batch).2)._dataset = s._dataset ∧
     ((s.get_train_batch).2)._label_list = s._label_list ∧
     ((s.get_train_batch).2).batch_size = s.batch_size ∧
     ((s.get_train_batch).2).train_ratio = s.train_ratio ∧
     ((s.get_train_batch).2).train_batch_index
        = (s.train_batch_index + 1) % s.num_train_batches) ∧
    (((s.get_test_batch).2).train_batch_index = s.train_batch_index ∧
     ((s.get_test_batch).2).x_train = s.x_train ∧
     ((s.get_test_batch).2).y_train = s.y_train ∧
     ((s.get_test_batch).2).x_test = s.x_test ∧
     ((s.get_test_batch).2).y_test = s.y_test ∧
     ((s.get_test_batch).2)._dataset = s._dataset ∧
     ((s.get_test_batch).2)._label_list = s._label_list ∧
     ((s.get_test_batch).2).batch_size = s.batch_size ∧
     ((s.get_test_batch).2).train_ratio = s.train_ratio ∧
     ((s.get_test_batch).2).test_batch_index
        = (s.test_batch_index + 1) % s.num_test_batches) :=
  ⟨⟨rfl, rfl, rfl, rfl, rfl, rfl, rfl, rfl, rfl, rfl⟩,
   ⟨rfl, rfl, rfl, rfl, rfl, rfl, rfl, rfl, rfl, rfl⟩⟩

end Capstone

namespace Capstone

/-! ## Computations on the concrete fixtures -/

lemma W3_num_train_batches : W3.num_train_batches = 2 := by
  norm_num [W3, DatasetState.num_train_batches, DatasetState._get_num_samples,
    Base._get_num_train_batches, Base._get_num_train_samples, integer_floor]

lemma W3_num_test_batches : W3.num_test_batches = 2 := by
  norm_num [W3, DatasetState.num_test_batches, DatasetState._get_num_samples,
    Base._get_num_test_batches, Base._get_num_test_samples,
    Base._get_num_train_samples, integer_floor]

lemma W3_num_train_samples : W3.num_train_samples = 2 := by
  norm_num [W3, DatasetState.num_train_samples, DatasetState._get_num_samples,
    Base._get_num_train_samples, integer_floor]

lemma W3_num_test_samples : W3.num_test_samples = 2 := by
  norm_num [W3, DatasetState.num_test_samples, DatasetState._get_num_samples,
    Base._get_num_test_samples, Base._get_num_train_samples, integer_floor]

lemma constructed_W3 : Constructed W3 := by
  refine ⟨?_, ?_, ?_, ?_, rfl, rfl, rfl, rfl⟩
  · rw [W3_num_train_batches]; norm_num
  · rw [W3_num_test_batches]; norm_num
  · rw [W3_num_train_samples]; rfl
  · rw [W3_num_test_samples]; rfl

end Capstone

namespace Capstone

/-- Witness for C3 on the concrete 4-sample dataset `W3` (2 train batches):
the third `get_train_batch()` call returns the same batch as the first. -/
theorem claim_C3_witness :
    Constructed W3 ∧ W3.preprocess_text = (fun x => x) ∧
    (((W3.iterate_train W3.num_train_batches.toNat).get_train_batch).1
        = (W3.get_train_batch).1 ∧
     (W3.iterate_train W3.num_train_batches.toNat).train_batch_index = 0 ∧
     ∀ t : DatasetState, (((t.get_train_batch).2)).train_batch_index
        = (t.train_batch_index + 1) % t.num_train_batches) :=
  ⟨constructed_W3, rfl, claim_C3 W3 constructed_W3 rfl⟩

/-! ## W9 computations -/

lemma W9_num_train_samples : W9.num_train_samples = 5 := by
  norm_num [W9, DatasetState.num_train_samples, DatasetState._get_num_samples,
    Base._get_num_train_samples, integer_floor]

lemma W9_num_test_samples : W9.num_test_samples = 5 := by
  norm_num [W9, DatasetState.num_test_samples, DatasetState._get_num_samples,
    Base._get_num_test_samples, Base._get_num_train_samples, integer_floor]

lemma W9_num_train_batches : W9.num_train_batches = 2 := by
  norm_num [W9, DatasetState.num_train_batches, DatasetState._get_num_samples,
    Base._get_num_train_batches, Base._get_num_train_samples, integer_floor]

lemma W9_num_test_batches : W9.num_test_batches = 2 := by
  norm_num [W9, DatasetState.num_test_batches, DatasetState._get_num_samples,
    Base._get_num_test_batches, Base._get_num_test_samples,
    Base._get_num_train_samples, integer_floor]

lemma constructed_W9 : Constructed W9 := by
  refine ⟨?_, ?_, ?_, ?_, rfl, rfl, rfl, rfl⟩
  · rw [W9_num_train_batches]; norm_num
  · rw [W9_num_test_batches]; norm_num
  · rw [W9_num_train_samples]; rfl
  · rw [W9_num_test_samples]; rfl

end Capstone

namespace Capstone

/-! ## C9 (amended): reachable cursors never produce a short batch -/

/-- C9 as amended: on a constructed dataset with positive batch size, for
every reachable cursor `i` of either split the slice end `(i+1)*batch_size`
never exceeds the split's sample count, so the slice never truncates and
every returned batch has exactly `batch_size` elements.  The short-batch path
is unreachable even when floor division drops trailing samples. -/
theorem claim_C9 (s : DatasetState) (hc : Constructed s) (hbs : 0 < s.batch_size)
    (i : ℤ) (hi : 0 ≤ i) :
    (i < s.num_train_batches →
      (i + 1) * s.batch_size ≤ (s.x_train.length : ℤ) ∧
      ((py_slice s.x_train (i * s.batch_size) ((i + 1) * s.batch_size)).length : ℤ)
        = s.batch_size) ∧
    (i < s.num_test_batches →
      (i + 1) * s.batch_size ≤ (s.x_test.length : ℤ) ∧
      ((py_slice s.x_test (i * s.batch_size) ((i + 1) * s.batch_size)).length : ℤ)
        = s.batch_size) := by
  obtain ⟨-, -, hxtr, hxte, -, -, -, -⟩ := hc
  constructor
  · intro hiB
    have hcover : s.num_train_batches * s.batch_size ≤ s.num_train_samples :=
      floor_div_mul_le s.num_train_samples s.batch_size hbs
    have hle : (i + 1) * s.batch_size ≤ s.num_train_batches * s.batch_size :=
      mul_le_mul_of_nonneg_right (by omega) hbs.le
    have hend : (i + 1) * s.batch_size ≤ (s.x_train.length : ℤ) := by
      rw [hxtr]; exact le_trans hle hcover
    refine ⟨hend, ?_⟩
    rw [py_slice_length s.x_train _ _ (mul_nonneg hi hbs.le)
      (mul_le_mul_of_nonneg_right (by omega) hbs.le) hend]
    ring
  · intro hiB
    have hcover : s.num_test_batches * s.batch_size ≤ s.num_test_samples :=
      floor_div_mul_le s.num_test_samples s.batch_size hbs
    have hle : (i + 1) * s.batch_size ≤ s.num_test_batches * s.batch_size :=
      mul_le_mul_of_nonneg_right (by omega) hbs.le
    have hend : (i + 1) * s.batch_size ≤ (s.x_test.length : ℤ) := by
      rw [hxte]; exact le_trans hle hcover
    refine ⟨hend, ?_⟩
    rw [py_slice_length s.x_test _ _ (mul_nonneg hi hbs.le)
      (mul_le_mul_of_nonneg_right (by omega) hbs.le) hend]
    ring

/-- Counterexample to C9 as stated: on the constructed dataset `W9` the floor
division under-counts (2 batches of size 2 cover only 4 of the 5 train
samples), yet the short-batch path is not reachable: both reachable cursors
`0` and `1` produce full batches of exactly `batch_size = 2` elements. -/
theorem claim_C9_counterexample :
    Constructed W9 ∧
    W9.num_train_batches = 2 ∧ W9.batch_size = 2 ∧ W9.x_train.length = 5 ∧
    W9.num_train_batches * W9.batch_size < (W9.x_train.length : ℤ) ∧
    (py_slice W9.x_train (0 * W9.batch_size) ((0 + 1) * W9.batch_size)).length = 2 ∧
    (py_slice W9.x_train (1 * W9.batch_size) ((1 + 1) * W9.batch_size)).length = 2 :=
  ⟨constructed_W9, W9_num_train_batches, rfl, rfl,
   by rw [W9_num_train_batches]; norm_num [W9],
   by decide, by decide⟩

/-- Witness for the amended C9 at cursor `1` of `W9`: the final train batch is
full-size even though a trailing sample is dropped. -/
theorem claim_C9_witness :
    Constructed W9 ∧ (0 : ℤ) < W9.batch_size ∧ (0 : ℤ) ≤ 1 ∧
    ((1 + 1) * W9.batch_size ≤ (W9.x_train.length : ℤ) ∧
     ((py_slice W9.x_train (1 * W9.batch_size) ((1 + 1) * W9.batch_size)).length : ℤ)
        = W9.batch_size) :=
  ⟨constructed_W9, by norm_num [W9], by norm_num,
   (claim_C9 W9 constructed_W9 (by norm_num [W9]) 1 (by norm_num)).1
     (by rw [W9_num_train_batches]; norm_num)⟩

end Capstone

namespace Capstone

/-! ## C4: construction fails by assertion in exactly the listed cases -/

/-- C4: for nonnegative train ratio and positive batch size, construction
fails with an assertion exactly when `train_ratio >= 1.0`, or a required
column is missing, or the train or test batch count computed on the loaded
and filtered data is zero. -/
theorem claim_C4 (file : CsvFile) (bs : ℤ) (r : ℚ) (m : ℕ)
    (hbs : 0 < bs) (hr0 : 0 ≤ r) :
    (∃ e, construct_checks file bs r m = .error e) ↔
      (1 ≤ r ∨
       ¬ (∀ col ∈ expected_columns, col ∈ file.columns) ∨
       Base._get_num_train_batches
         (filter_tags_with_less_than_x_samples m (filter_tag_position 0 file.rows)).length
         r bs = 0 ∨
       Base._get_num_test_batches
         (filter_tags_with_less_than_x_samples m (filter_tag_position 0 file.rows)).length
         r bs = 0) := by
  set ds := filter_tags_with_less_than_x_samples m (filter_tag_position 0 file.rows) with hds
  set n := ds.length with hn
  by_cases hr1 : r < 1
  · have hnot1 : ¬ (1 ≤ r) := not_le.mpr hr1
    rw [construct_checks, if_pos hr1, load_dataset]
    by_cases hcols : expected_columns.all (fun col => file.columns.contains col) = true
    · rw [if_pos hcols, ← hds]
      dsimp only
      rw [← hn]
      have hcols2 : ∀ col ∈ expected_columns, col ∈ file.columns := by
        intro col hcol
        have hcc := List.all_eq_true.mp hcols col hcol
        simpa using hcc
      have htr0 : 0 ≤ Base._get_num_train_samples n r :=
        Int.floor_nonneg.mpr (mul_nonneg (Nat.cast_nonneg n) hr0)
      have htrn : Base._get_num_train_samples n r ≤ (n : ℤ) := by
        have h1 : (n : ℚ) * r ≤ (n : ℚ) :=
          mul_le_of_le_one_right (Nat.cast_nonneg n) hr1.le
        have h2 : ⌊(n : ℚ) * r⌋ ≤ ⌊(n : ℚ)⌋ := Int.floor_le_floor h1
        rw [Int.floor_natCast] at h2
        exact h2
      have hte0 : 0 ≤ Base._get_num_test_samples n r := by
        rw [num_test_samples_eq]
        omega
      have htrb0 : 0 ≤ Base._get_num_train_batches n r bs :=
        Int.floor_nonneg.mpr (div_nonneg (by exact_mod_cast htr0)
          (by exact_mod_cast hbs.le))
      have hteb0 : 0 ≤ Base._get_num_test_batches n r bs :=
        Int.floor_nonneg.mpr (div_nonneg (by exact_mod_cast hte0)
          (by exact_mod_cast hbs.le))
      by_cases h1 : 0 < Base._get_num_train_batches n r bs
      · rw [if_pos h1]
        by_cases h2 : 0 < Base._get_num_test_batches n r bs
        · rw [if_pos h2]
          constructor
          · rintro ⟨e, he⟩
            exact absurd he (by simp)
          · rintro (h | h | h | h)
            · exact absurd h hnot1
            · exact absurd hcols2 h
            · omega
            · omega
        · rw [if_neg h2]
          exact ⟨fun _ => Or.inr (Or.inr (Or.inr (by omega))), fun _ => ⟨_, rfl⟩⟩
      · rw [if_neg h1]
        exact ⟨fun _ => Or.inr (Or.inr (Or.inl (by omega))), fun _ => ⟨_, rfl⟩⟩
    · rw [if_neg hcols]
      refine ⟨fun _ => Or.inr (Or.inl ?_), fun _ => ⟨_, rfl⟩⟩
      intro hall
      apply hcols
      rw [List.all_eq_true]
      intro col hcol
      simpa using hall col hcol
  · rw [construct_checks, if_neg hr1]
    exact ⟨fun _ => Or.inl (not_lt.mp hr1), fun _ => ⟨_, rfl⟩⟩

/-- Witness for C4 on a well-formed two-row fixture with `batch_size = 1`,
`train_ratio = 1/2`, `min_samples_per_label = 1`: construction succeeds, and
accordingly no disjunct of the failure condition holds. -/
theorem claim_C4_witness :
    (0 : ℤ) < 1 ∧ (0 : ℚ) ≤ 1/2 ∧
    ((∃ e, construct_checks fixtureC4 1 (1/2) 1 = .error e) ↔
      (1 ≤ (1/2 : ℚ) ∨
       ¬ (∀ col ∈ expected_columns, col ∈ fixtureC4.columns) ∨
       Base._get_num_train_batches
         (filter_tags_with_less_than_x_samples 1
           (filter_tag_position 0 fixtureC4.rows)).length (1/2) 1 = 0 ∨
       Base._get_num_test_batches
         (filter_tags_with_less_than_x_samples 1
           (filter_tag_position 0 fixtureC4.rows)).length (1/2) 1 = 0)) :=
  ⟨by norm_num, by norm_num, claim_C4 fixtureC4 1 (1/2) 1 (by norm_num) (by norm_num)⟩

end Capstone

namespace Capstone

/-! ## C5: load_dataset filters by position, then by tag frequency -/

/-- C5: a successful `load_dataset` keeps exactly the rows with
`tag_position = 0` whose `tag_name` occurs at least `min_samples_per_label`
times within the `tag_position = 0` subset (the count is taken after the
position filter, not before); in particular the 2-row fixture with
`tag_position` values `[0, 1]` and threshold `1` yields exactly its one
`tag_position = 0` row. -/
theorem claim_C5 (file : CsvFile) (m : ℕ) (ds : List Row)
    (h : load_dataset file m = .ok ds) :
    (∀ row : Row, row ∈ ds ↔
      (row ∈ file.rows ∧ row.tag_position = 0 ∧
       m ≤ tag_count (filter_tag_position 0 file.rows) row.tag_name)) ∧
    load_dataset fixtureTwoRows 1 = .ok [sampleRow] := by
  have hds : ds
      = filter_tags_with_less_than_x_samples m (filter_tag_position 0 file.rows) := by
    rw [load_dataset] at h
    by_cases hcols : expected_columns.all (fun col => file.columns.contains col) = true
    · rw [if_pos hcols] at h
      exact (Except.ok.inj h).symm
    · rw [if_neg hcols] at h
      exact absurd h (by simp)
  subst hds
  constructor
  · intro row
    rw [filter_tags_with_less_than_x_samples, List.mem_filter,
      filter_tag_position, List.mem_filter]
    simp [and_assoc]
  · rfl

/-- Witness for C5 on the 2-row fixture: loading keeps exactly the
`tag_position = 0` row, and that row satisfies the membership
characterization. -/
theorem claim_C5_witness :
    load_dataset fixtureTwoRows 1 = .ok [sampleRow] ∧
    (∀ row : Row, row ∈ [sampleRow] ↔
      (row ∈ fixtureTwoRows.rows ∧ row.tag_position = 0 ∧
       1 ≤ tag_count (filter_tag_position 0 fixtureTwoRows.rows) row.tag_name)) :=
  ⟨rfl, (claim_C5 fixtureTwoRows 1 [sampleRow] rfl).1⟩

end Capstone
